import Mathlib

/-!
# VRV_Security: role-based access control over posts

A shallow embedding of `src/app.js` and of the two models of `src/db.js`.

* The store (Sequelize over MySQL) is an explicit value of type `Store`: the rows of
  `User` and `Post` in insertion order plus the two auto-increment counters.  Every
  store call (`findOne`, `findByPk`, `findAll`, `create`, `save`, `destroy`) is one
  atomic step on that value.  The `catch` branches that answer 500 are modelled where
  the handler itself can throw (reading `req.user.username` with no `req.user`) and
  where `Post.create` refuses a value; other store exceptions are outside the model.
* `jwt.verify(token, secret)` and `bcrypt.hashSync(password, 10)` are parameters
  (`verify`, `hash`).
* An Express route is a list of middlewares followed by a handler; a middleware either
  answers or calls `next()`.
* Strings are JavaScript strings: `.length` counts UTF-16 code units (`jsLength`).
* The fields `title` and `content` of a request body are arbitrary JSON values (`Json`),
  or absent.  What the JavaScript engine and Sequelize do with values that are not
  strings lies outside `src/` and is taken as a parameter (`Platform`).
* The columns `createdAt`, `updatedAt` and `userId` of `Post` are not modelled.
-/

namespace VRV

/-! ## JavaScript helpers -/

/-- UTF-16 code units taken by one character. -/
def utf16Units (c : Char) : Nat := if c.toNat < 0x10000 then 1 else 2

/-- The JavaScript `s.length`: the number of UTF-16 code units of `s`. -/
def jsLength (s : String) : Nat := (s.toList.map utf16Units).sum

/-- The JavaScript `!v` for a value that is either `undefined` or a string (the token
taken from the header). -/
def isFalsy : Option String → Bool
  | none => true
  | some s => s.toList.isEmpty

/-- A JSON value, as `express.json()` puts it in `req.body`.  A number is represented by
its JavaScript text `String(x)`, so that zero is exactly `"0"`. -/
inductive Json where
  | null
  | bool (b : Bool)
  | num (text : String)
  | str (s : String)
  | arr (items : List Json)
  | obj (fields : List (String × Json))

/-- The JavaScript `!v` for a body field that is either absent (`undefined`) or a JSON
value: `undefined`, `null`, `false`, `0` and `""` are falsy, everything else is truthy. -/
def jsonFalsy : Option Json → Bool
  | none => true
  | some Json.null => true
  | some (Json.bool b) => !b
  | some (Json.num text) => text == "0"
  | some (Json.str s) => s.toList.isEmpty
  | some (Json.arr _) => false
  | some (Json.obj _) => false

/-- What the handlers rely on outside `src/`: the JavaScript engine on objects and the
column writes of Sequelize. -/
structure Platform where
  /-- The value of `o.length < n` for a JSON object `o` with the given fields. -/
  objectLengthLt : List (String × Json) → Nat → Bool
  /-- The text `Post.create` writes in the column `title` for a value, `none` when it
  throws. -/
  titleColumn : Json → Option String
  /-- The text `Post.create` writes in the column `content` for a value, `none` when it
  throws. -/
  contentColumn : Json → Option String

/-- The JavaScript `v.length < n` for a truthy field `v`: a string has its number of code
units, an array its number of items; a number or a boolean has no `length`, and
`undefined < n` is false.  (`undefined` and `null` never reach this test: `!v` holds.) -/
def lengthLt (pf : Platform) : Option Json → Nat → Bool
  | some (Json.str s), n => decide (jsLength s < n)
  | some (Json.arr items), n => decide (items.length < n)
  | some (Json.obj fields), n => pf.objectLengthLt fields n
  | _, _ => false

/-- Sequelize writes a string as it is, in both columns. -/
def StoresStrings (pf : Platform) : Prop :=
  ∀ s : String, pf.titleColumn (Json.str s) = some s ∧ pf.contentColumn (Json.str s) = some s

/-- The JavaScript `s.split(" ")` on the characters of `s`. -/
def splitSpace : List Char → List (List Char)
  | [] => [[]]
  | c :: cs =>
    match splitSpace cs with
    | [] => [[]]
    | w :: ws => if c = ' ' then [] :: w :: ws else (c :: w) :: ws

/-- The expression `req.headers["authorization"]?.split(" ")[1]`. -/
def bearerToken (authorization : Option String) : Option String :=
  match authorization with
  | none => none
  | some h => ((splitSpace h.toList).get? 1).map String.mk

/-! ## Data model (`src/db.js`) -/

/-- A row of the `User` model. -/
structure User where
  id : Nat
  username : String
  password : String
  role : String
  deriving DecidableEq, Repr

/-- A row of the `Post` model. -/
structure Post where
  id : Nat
  username : String
  title : String
  content : String
  isValidated : Bool
  deriving DecidableEq, Repr

/-- The persistent store: both tables and their auto-increment counters. -/
structure Store where
  users : List User
  posts : List Post
  nextUserId : Nat
  nextPostId : Nat
  deriving DecidableEq, Repr

/-- The payload of a verified token: `{ username, role }`. -/
structure Claims where
  username : String
  role : String
  deriving DecidableEq, Repr

/-! ## Requests, responses, middlewares -/

/-- What a handler sends back. -/
inductive Body where
  | text (s : String)
  | json (fields : List (String × String))
  | posts (ps : List Post)
  deriving DecidableEq, Repr

/-- An HTTP answer: status, headers set with `res.set`, body. -/
structure Response where
  status : Nat
  headers : List (String × String)
  body : Body
  deriving DecidableEq, Repr

/-- The part of `req` the middlewares read and write. -/
structure Request where
  authorization : Option String
  user : Option Claims
  deriving DecidableEq, Repr

/-- A middleware either answers or calls `next()` with the request it may have updated. -/
inductive Step where
  | respond (r : Response)
  | next (req : Request)
  deriving DecidableEq, Repr

/-- The expression `res.status(code).send(msg)`. -/
def send (code : Nat) (msg : String) : Response := ⟨code, [], Body.text msg⟩

abbrev Verify := String → Option Claims

abbrev Middleware := Store → Request → Step × Store

abbrev Handler := Store → Request → Response × Store

/-- The table `roles` of `src/app.js` (absent keys have no permission). -/
def roles (role : String) : List String :=
  if role = "admin" then ["read", "write", "delete"]
  else if role = "user" then ["read"]
  else if role = "moderator" then ["read", "write"]
  else []

def missingTokenChallenge : String :=
  "Bearer realm=\"example\", error=\"missing_token\", error_description=\"No token provided\""

def invalidTokenChallenge : String :=
  "Bearer realm=\"example\", error=\"invalid_token\", error_description=\"Invalid or expired token\""

/-- The answer of `authenticateToken` when no token was found. -/
def missingTokenResponse : Response :=
  ⟨401, [("WWW-Authenticate", missingTokenChallenge)],
    Body.json [("error", "Unauthorized"), ("message", "Authentication required")]⟩

/-- The answer of `authenticateToken` when `jwt.verify` reports an error. -/
def invalidTokenResponse : Response :=
  ⟨401, [("WWW-Authenticate", invalidTokenChallenge)],
    Body.json [("error", "Unauthorized"), ("message", "Token is invalid or expired")]⟩

/-- The middleware `authenticateToken`. -/
def authenticateToken (verify : Verify) : Middleware := fun st req =>
  let token := bearerToken req.authorization
  if isFalsy token then (Step.respond missingTokenResponse, st)
  else
    match verify (token.getD "") with
    | none => (Step.respond invalidTokenResponse, st)
    | some user => (Step.next { req with user := some user }, st)

/-- The middleware factory `authorize(roles)`. -/
def authorize (verify : Verify) (allowed : List String) : Middleware := fun st req =>
  let token := bearerToken req.authorization
  if isFalsy token then (Step.respond (send 401 "No token provided"), st)
  else
    match verify (token.getD "") with
    | none => (Step.respond (send 401 "Invalid token"), st)
    | some decoded =>
      if !allowed.contains decoded.role then (Step.respond (send 403 "Access denied"), st)
      else (Step.next { req with user := some decoded }, st)

/-- The caller of `req` presents a token that `jwt.verify` accepts with payload `c`. -/
def Authenticated (verify : Verify) (req : Request) (c : Claims) : Prop :=
  isFalsy (bearerToken req.authorization) = false ∧
    verify ((bearerToken req.authorization).getD "") = some c

instance (verify : Verify) (req : Request) (c : Claims) : Decidable (Authenticated verify req c) :=
  inferInstanceAs (Decidable (_ ∧ _))

/-- Express runs the middlewares of a route in order, then the handler. -/
def route (ms : List Middleware) (handler : Handler) (st : Store) (req : Request) :
    Response × Store :=
  match ms with
  | [] => handler st req
  | m :: rest =>
    match m st req with
    | (Step.respond r, st1) => (r, st1)
    | (Step.next req1, st1) => route rest handler st1 req1

/-- The call `User.create({ username, password, role })`. -/
def Store.createUser (st : Store) (username password role : String) : Store :=
  { st with
    users := st.users ++ [⟨st.nextUserId, username, password, role⟩]
    nextUserId := st.nextUserId + 1 }

/-- The call `Post.create({ username, title, content, isValidated })`. -/
def Store.createPost (st : Store) (username title content : String) (isValidated : Bool) :
    Store :=
  { st with
    posts := st.posts ++ [⟨st.nextPostId, username, title, content, isValidated⟩]
    nextPostId := st.nextPostId + 1 }

/-- The assignment `post.isValidated = isValid` followed by `post.save()`, for the row
with primary key `postId`. -/
def Store.setValidated (st : Store) (postId : Nat) (isValid : Bool) : Store :=
  { st with
    posts := st.posts.map
      (fun p => if p.id == postId then { p with isValidated := isValid } else p) }

/-- The call `post.destroy()` for the row with primary key `postId`. -/
def Store.destroyPost (st : Store) (postId : Nat) : Store :=
  { st with posts := st.posts.filter (fun p => !(p.id == postId)) }

/-! ## Sign-up -/

/-- The list `["admin", "user", "moderator"]` of `signUp`. -/
def validRoles : List String := ["admin", "user", "moderator"]

/-- The function `signUp`, on the body `{ username, password, role }`. -/
def signUp (hash : String → String) (st : Store) (username password role : String) :
    Response × Store :=
  match st.users.find? (fun u => u.username == username) with
  | some _ => (send 400 "Username already exists", st)
  | none =>
    if !validRoles.contains role then (send 400 "Invalid role", st)
    else
      (send 201 "User registered successfully",
        st.createUser username (hash password) role)

/-! ## Posts -/

/-- The allow-list of `POST /posts` (and of `GET /posts`). -/
def createAllowList : List String := ["user", "moderator", "admin"]

/-- The answer of `POST /posts` on success. -/
def createdResponse : Response :=
  ⟨201, [], Body.json [("message", "Post created successfully, waiting for validation")]⟩

/-- The handler of `POST /posts`, on the body `{ title, content }`.  Reading
`req.user.username` without `req.user`, and a `Post.create` that throws, end in the
`catch` branch. -/
def createPostHandler (pf : Platform) (title content : Option Json) : Handler := fun st req =>
  if jsonFalsy title || lengthLt pf title 5 then
    (send 400 "Title must be at least 5 characters long", st)
  else if jsonFalsy content || lengthLt pf content 20 then
    (send 400 "Content must be at least 20 characters long", st)
  else
    match req.user, title, content with
    | some user, some t, some c =>
      match pf.titleColumn t, pf.contentColumn c with
      | some titleText, some contentText =>
        (createdResponse, st.createPost user.username titleText contentText false)
      | _, _ => (send 500 "Error creating post", st)
    | _, _, _ => (send 500 "Error creating post", st)

/-- The route `POST /posts`. -/
def createPost (pf : Platform) (verify : Verify) (title content : Option Json) : Handler :=
  route [authenticateToken verify, authorize verify createAllowList]
    (createPostHandler pf title content)

/-- The allow-list of `GET /posts/unvalidated`. -/
def unvalidatedAllowList : List String := ["admin"]

/-- The handler of `GET /posts/unvalidated`: `Post.findAll` where `isValidated` is false. -/
def unvalidatedHandler : Handler := fun st _ =>
  (⟨200, [], Body.posts (st.posts.filter (fun p => !p.isValidated))⟩, st)

/-- The route `GET /posts/unvalidated`. -/
def getUnvalidated (verify : Verify) : Handler :=
  route [authenticateToken verify, authorize verify unvalidatedAllowList] unvalidatedHandler

/-- The allow-list of `POST /posts/validate/:id`. -/
def validateAllowList : List String := ["moderator"]

/-- The text `comments || 'No comments provided'`. -/
def commentsOrDefault (comments : Option String) : String :=
  match comments with
  | none => "No comments provided"
  | some s => if s.toList.isEmpty then "No comments provided" else s

/-- The handler of `POST /posts/validate/:id`, on the body `{ isValid, comments }`. -/
def validateHandler (postId : Nat) (isValid : Bool) (comments : Option String) : Handler :=
  fun st _ =>
  match st.posts.find? (fun p => p.id == postId) with
  | none => (send 404 "Post not found", st)
  | some _ =>
    (send 200 (if isValid then "Post validated successfully"
        else "Post rejected: " ++ commentsOrDefault comments),
      st.setValidated postId isValid)

/-- The route `POST /posts/validate/:id`. -/
def validatePost (verify : Verify) (postId : Nat) (isValid : Bool) (comments : Option String) :
    Handler :=
  route [authenticateToken verify, authorize verify validateAllowList]
    (validateHandler postId isValid comments)

/-- The allow-list of `DELETE /posts/:id`. -/
def deleteAllowList : List String := ["admin", "moderator"]

/-- The handler of `DELETE /posts/:id`. -/
def deleteHandler (postId : Nat) : Handler := fun st req =>
  match st.posts.find? (fun p => p.id == postId) with
  | none => (send 404 "Post not found", st)
  | some post =>
    match req.user with
    | none => (send 500 "Error deleting post", st)
    | some user =>
      if post.username != user.username && user.role != "admin" then
        (send 403 "You do not have permission to delete this post", st)
      else
        (send 200 "Post deleted successfully", st.destroyPost postId)

/-- The route `DELETE /posts/:id`. -/
def deletePost (verify : Verify) (postId : Nat) : Handler :=
  route [authenticateToken verify, authorize verify deleteAllowList] (deleteHandler postId)

/-! ## Sample data used at concrete inputs -/

/-- A token service that knows four tokens. -/
def sampleVerify : Verify := fun token =>
  if token = "t-admin" then some ⟨"root", "admin"⟩
  else if token = "t-mod" then some ⟨"mia", "moderator"⟩
  else if token = "t-bob" then some ⟨"bob", "user"⟩
  else if token = "t-guest" then some ⟨"eve", "guest"⟩
  else none

/-- A store with one account and one pending post written by `bob`. -/
def sampleStore : Store :=
  ⟨[⟨1, "alice", "h", "admin"⟩], [⟨1, "bob", "Hello world", "A body of twenty chars", false⟩], 2, 2⟩

def emptyStore : Store := ⟨[], [], 1, 1⟩

/-- A stand-in for `bcrypt.hashSync`. -/
def sampleHash : String → String := fun password => "h:" ++ password

/-- A platform on which strings and numbers are written as their text and every other
value makes `Post.create` throw. -/
def samplePlatform : Platform where
  objectLengthLt := fun _ _ => false
  titleColumn := fun v =>
    match v with
    | Json.str s => some s
    | Json.num text => some text
    | _ => none
  contentColumn := fun v =>
    match v with
    | Json.str s => some s
    | Json.num text => some text
    | _ => none

def reqAdmin : Request := ⟨some "Bearer t-admin", none⟩

def reqMod : Request := ⟨some "Bearer t-mod", none⟩

def reqBob : Request := ⟨some "Bearer t-bob", none⟩

/-- The store after `bob` has created one post in the empty store. -/
def lifecycleCreated : Store :=
  (createPost samplePlatform sampleVerify (some (Json.str "Hello"))
    (some (Json.str "01234567890123456789")) emptyStore reqBob).2

/-- The store after a moderator has then validated that post with `isValid = true`. -/
def lifecycleApproved : Store :=
  (validatePost sampleVerify 1 true none lifecycleCreated reqMod).2

/-- The store after a moderator has then validated it again with `isValid = false`. -/
def lifecycleReverted : Store :=
  (validatePost sampleVerify 1 false none lifecycleApproved reqMod).2

/-! ## Sequences of calls and invariants -/

/-- A sequence of `POST /posts/validate/:id` handler runs on the same post. -/
def validateAll (postId : Nat) : List (Bool × Option String) → Store → Request → Store
  | [], st, _ => st
  | (isValid, comments) :: rest, st, req =>
    validateAll postId rest (validateHandler postId isValid comments st req).2 req

/-- A sequence of `signUp` calls, each on the body `(username, password, role)`. -/
def signUpAll (hash : String → String) : List (String × String × String) → Store → Store
  | [], st => st
  | (username, password, role) :: rest, st =>
    signUpAll hash rest (signUp hash st username password role).2

/-- The account set has pairwise distinct usernames and only the three known roles. -/
def AccountsOk (st : Store) : Prop :=
  (st.users.map (fun u => u.username)).Nodup ∧ ∀ u ∈ st.users, u.role ∈ validRoles

/-! ## Shared lemmas -/

theorem jsLength_pos_not_empty (s : String) (h : 0 < jsLength s) : s.toList.isEmpty = false := by
  cases hs : s.toList with
  | nil => rw [jsLength, hs] at h; simp at h
  | cons c cs => rfl

theorem route_respond_missing (verify : Verify) (allowed : List String) (handler : Handler)
    (st : Store) (req : Request) (h : isFalsy (bearerToken req.authorization) = true) :
    route [authenticateToken verify, authorize verify allowed] handler st req
      = (missingTokenResponse, st) := by
  simp [route, authenticateToken, h]

theorem route_respond_invalid (verify : Verify) (allowed : List String) (handler : Handler)
    (st : Store) (req : Request) (h : isFalsy (bearerToken req.authorization) = false)
    (hv : verify ((bearerToken req.authorization).getD "") = none) :
    route [authenticateToken verify, authorize verify allowed] handler st req
      = (invalidTokenResponse, st) := by
  simp [route, authenticateToken, h, hv]

theorem route_denied (verify : Verify) (allowed : List String) (handler : Handler)
    (st : Store) (req : Request) (c : Claims) (h : Authenticated verify req c)
    (hr : allowed.contains c.role = false) :
    route [authenticateToken verify, authorize verify allowed] handler st req
      = (send 403 "Access denied", st) := by
  obtain ⟨h1, h2⟩ := h
  have hr1 : c.role ∉ allowed := by simpa using hr
  simp [route, authenticateToken, authorize, h1, h2, hr1]

theorem route_allowed (verify : Verify) (allowed : List String) (handler : Handler)
    (st : Store) (req : Request) (c : Claims) (h : Authenticated verify req c)
    (hr : allowed.contains c.role = true) :
    route [authenticateToken verify, authorize verify allowed] handler st req
      = handler st ⟨req.authorization, some c⟩ := by
  obtain ⟨h1, h2⟩ := h
  have hr1 : c.role ∈ allowed := by simpa using hr
  simp [route, authenticateToken, authorize, h1, h2, hr1]

theorem splitSpace_ne_nil (cs : List Char) : splitSpace cs ≠ [] := by
  cases cs with
  | nil => simp [splitSpace]
  | cons c cs =>
    simp only [splitSpace]
    split
    · simp
    · split <;> simp

theorem splitSpace_no_space (w : List Char) (h : ' ' ∉ w) : splitSpace w = [w] := by
  induction w with
  | nil => rfl
  | cons c cs ih =>
    have hc : c ≠ ' ' := fun e => h (by simp [e])
    have hcs : ' ' ∉ cs := fun e => h (by simp [e])
    simp [splitSpace, ih hcs, hc]

theorem splitSpace_word (w rest : List Char) (h : ' ' ∉ w) :
    splitSpace (w ++ ' ' :: rest) = w :: splitSpace rest := by
  induction w with
  | nil =>
    simp only [List.nil_append, splitSpace]
    split
    · rename_i e; exact absurd e (splitSpace_ne_nil rest)
    · rename_i e; simp [e]
  | cons c cs ih =>
    have hc : c ≠ ' ' := fun e => h (by simp [e])
    have hcs : ' ' ∉ cs := fun e => h (by simp [e])
    simp [splitSpace, ih hcs, hc]

theorem bearerToken_scheme_token (scheme token : String) (hs : ' ' ∉ scheme.toList)
    (ht : ' ' ∉ token.toList) :
    bearerToken (some (scheme ++ " " ++ token)) = some token := by
  have e : (scheme ++ " " ++ token).toList = scheme.toList ++ ' ' :: token.toList := by
    simp [String.toList]
  simp only [bearerToken, e, splitSpace_word _ _ hs, splitSpace_no_space _ ht]
  rfl

theorem find_username_eq_none (us : List User) (username : String) :
    us.find? (fun u => u.username == username) = none
      ↔ username ∉ us.map (fun u => u.username) := by
  induction us with
  | nil => simp
  | cons u us ih =>
    by_cases e : u.username = username
    · simp [List.find?_cons, e]
    · have e1 : ¬ username = u.username := fun x => e x.symm
      simp [List.find?_cons, e, e1, ih]

theorem signUp_existing (hash : String → String) (st : Store) (username password role : String)
    (h : username ∈ st.users.map (fun u => u.username)) :
    signUp hash st username password role = (send 400 "Username already exists", st) := by
  unfold signUp
  cases hf : st.users.find? (fun u => u.username == username) with
  | none => exact absurd h ((find_username_eq_none _ _).1 hf)
  | some u => rfl

theorem signUp_fresh (hash : String → String) (st : Store) (username password role : String)
    (h : username ∉ st.users.map (fun u => u.username)) :
    signUp hash st username password role =
      if role ∈ validRoles then
        (send 201 "User registered successfully", st.createUser username (hash password) role)
      else (send 400 "Invalid role", st) := by
  unfold signUp
  rw [(find_username_eq_none _ _).2 h]
  by_cases hr : role ∈ validRoles
  · simp [hr]
  · simp [hr]

theorem signUp_accountsOk (hash : String → String) (st : Store)
    (username password role : String) (h : AccountsOk st) :
    AccountsOk (signUp hash st username password role).2 := by
  by_cases hu : username ∈ st.users.map (fun u => u.username)
  · rw [signUp_existing hash st username password role hu]; exact h
  · rw [signUp_fresh hash st username password role hu]
    by_cases hr : role ∈ validRoles
    · rw [if_pos hr]
      obtain ⟨h1, h2⟩ := h
      constructor
      · simp only [Store.createUser, List.map_append, List.map_cons, List.map_nil]
        rw [List.nodup_append]
        refine ⟨h1, by simp, ?_⟩
        intro a ha hb
        simp only [List.mem_singleton] at hb
        exact hu (hb ▸ ha)
      · intro u hmem
        simp only [Store.createUser, List.mem_append, List.mem_singleton] at hmem
        rcases hmem with hmem | hmem
        · exact h2 u hmem
        · rw [hmem]; exact hr
    · rw [if_neg hr]; exact h

theorem signUpAll_accountsOk (hash : String → String) (reqs : List (String × String × String))
    (st : Store) (h : AccountsOk st) : AccountsOk (signUpAll hash reqs st) := by
  induction reqs generalizing st with
  | nil => exact h
  | cons r rest ih =>
    obtain ⟨username, password, role⟩ := r
    exact ih _ (signUp_accountsOk hash st username password role h)

theorem setValidated_absent (st : Store) (postId : Nat) (isValid : Bool)
    (h : st.posts.find? (fun p => p.id == postId) = none) :
    st.setValidated postId isValid = st := by
  have hall : ∀ p ∈ st.posts, ¬ p.id = postId := by
    simpa [List.find?_eq_none] using h
  have hmap : st.posts.map
      (fun p => if p.id == postId then { p with isValidated := isValid } else p)
        = st.posts := by
    conv_rhs => rw [← List.map_id st.posts]
    apply List.map_congr_left
    intro p hp
    simp [hall p hp]
  cases st
  simp only [Store.setValidated] at hmap ⊢
  rw [hmap]

theorem validateHandler_store (st : Store) (req : Request) (postId : Nat) (isValid : Bool)
    (comments : Option String) :
    (validateHandler postId isValid comments st req).2 = st.setValidated postId isValid := by
  unfold validateHandler
  cases hf : st.posts.find? (fun p => p.id == postId) with
  | none => exact (setValidated_absent st postId isValid hf).symm
  | some p => rfl

theorem setValidated_twice (st : Store) (postId : Nat) (a b : Bool) :
    (st.setValidated postId a).setValidated postId b = st.setValidated postId b := by
  simp only [Store.setValidated, List.map_map]
  congr 1
  apply List.map_congr_left
  intro p _
  by_cases e : p.id = postId <;> simp [e]

theorem validateAll_last (postId : Nat) (calls : List (Bool × Option String))
    (isValid : Bool) (comments : Option String) (st : Store) (req : Request) :
    validateAll postId (calls ++ [(isValid, comments)]) st req
      = st.setValidated postId isValid := by
  induction calls generalizing st with
  | nil => simp [validateAll, validateHandler_store]
  | cons call rest ih =>
    obtain ⟨v, c⟩ := call
    show validateAll postId (rest ++ [(isValid, comments)])
      (validateHandler postId v c st req).2 req = _
    rw [ih, validateHandler_store, setValidated_twice]

theorem setValidated_same_flag (st : Store) (postId : Nat) (isValid : Bool)
    (h : ∀ p ∈ st.posts, p.id = postId → p.isValidated = isValid) :
    st.setValidated postId isValid = st := by
  have hmap : st.posts.map
      (fun p => if p.id == postId then { p with isValidated := isValid } else p)
        = st.posts := by
    conv_rhs => rw [← List.map_id st.posts]
    apply List.map_congr_left
    intro p hp
    by_cases e : p.id = postId
    · have hv := h p hp e
      cases p
      simp only at hv e
      simp [e, hv]
    · simp [e]
  cases st
  simp only [Store.setValidated] at hmap ⊢
  rw [hmap]

theorem createPostHandler_eq (pf : Platform) (hs : StoresStrings pf) (st : Store)
    (authorization : Option String) (user : Claims) (title content : String) :
    createPostHandler pf (some (Json.str title)) (some (Json.str content)) st
        ⟨authorization, some user⟩ =
      if jsLength title < 5 then (send 400 "Title must be at least 5 characters long", st)
      else if jsLength content < 20 then
        (send 400 "Content must be at least 20 characters long", st)
      else (createdResponse, st.createPost user.username title content false) := by
  by_cases ht : jsLength title < 5
  · simp [createPostHandler, lengthLt, ht]
  · have ht1 : title.data ≠ [] := by simpa using jsLength_pos_not_empty title (by omega)
    by_cases hc : jsLength content < 20
    · simp [createPostHandler, lengthLt, jsonFalsy, ht, ht1, hc]
    · have hc1 : content.data ≠ [] := by simpa using jsLength_pos_not_empty content (by omega)
      simp [createPostHandler, lengthLt, jsonFalsy, ht, ht1, hc, hc1, (hs title).1,
        (hs content).2]

theorem createPostHandler_pending (pf : Platform) (title content : Option Json) (st : Store)
    (req : Request) :
    ∀ p ∈ (createPostHandler pf title content st req).2.posts,
      p ∈ st.posts ∨ p.isValidated = false := by
  intro p hp
  unfold createPostHandler at hp
  split at hp
  · exact Or.inl hp
  · split at hp
    · exact Or.inl hp
    · split at hp
      · split at hp
        · simp only [Store.createPost, List.mem_append, List.mem_singleton] at hp
          rcases hp with hp | hp
          · exact Or.inl hp
          · exact Or.inr (by rw [hp])
        · exact Or.inl hp
      · exact Or.inl hp

/-! ## Content creation -/

/-- C1, on the code. `POST /posts` handler, for every caller set in `req.user` by the
middlewares.  For a title and a body (`content`) that are strings the claim holds: the
post is created, that is the answer is 201 and the store gains exactly the row
`(nextPostId, caller's username, title, content, false)`, if and only if the title has at
least 5 and the body at least 20 UTF-16 code units (JavaScript `.length`); otherwise the
answer is 400 and the store is unchanged, the title message first; lengths 4 and 19 are
rejected, lengths 5 and 20 accepted.  But the guard `!title || title.length < 5` lets a
title that is a non-zero number through (it has no `length`, and `undefined < 5` is
false): the post is created with whatever text Sequelize writes for the number, however
short; the same holds for a body that is a non-zero number. -/
theorem createPost_iff_lengths (pf : Platform) (hs : StoresStrings pf) (st : Store)
    (authorization : Option String) (user : Claims) (title content : String) :
    (createPostHandler pf (some (Json.str title)) (some (Json.str content)) st
          ⟨authorization, some user⟩
        = (createdResponse, st.createPost user.username title content false)
      ↔ 5 ≤ jsLength title ∧ 20 ≤ jsLength content)
    ∧ ((createPostHandler pf (some (Json.str title)) (some (Json.str content)) st
          ⟨authorization, some user⟩).1.status = 201 ↔ 5 ≤ jsLength title ∧ 20 ≤ jsLength content)
    ∧ ((createPostHandler pf (some (Json.str title)) (some (Json.str content)) st
          ⟨authorization, some user⟩).2.posts
        = st.posts ++ [⟨st.nextPostId, user.username, title, content, false⟩]
      ↔ 5 ≤ jsLength title ∧ 20 ≤ jsLength content)
    ∧ (jsLength title < 5 →
        createPostHandler pf (some (Json.str title)) (some (Json.str content)) st
          ⟨authorization, some user⟩ = (send 400 "Title must be at least 5 characters long", st))
    ∧ (5 ≤ jsLength title → jsLength content < 20 →
        createPostHandler pf (some (Json.str title)) (some (Json.str content)) st
          ⟨authorization, some user⟩ = (send 400 "Content must be at least 20 characters long", st))
    ∧ (jsLength title = 4 → (createPostHandler pf (some (Json.str title)) (some (Json.str content)) st
          ⟨authorization, some user⟩).1.status = 400)
    ∧ (jsLength content = 19 → (createPostHandler pf (some (Json.str title)) (some (Json.str content)) st
          ⟨authorization, some user⟩).1.status = 400)
    ∧ (jsLength title = 5 → jsLength content = 20 → (createPostHandler pf (some (Json.str title)) (some (Json.str content)) st
          ⟨authorization, some user⟩).1.status = 201)
    ∧ (∀ number stored : String, number ≠ "0" → pf.titleColumn (Json.num number) = some stored →
        20 ≤ jsLength content →
        createPostHandler pf (some (Json.num number)) (some (Json.str content)) st
            ⟨authorization, some user⟩
          = (createdResponse, st.createPost user.username stored content false))
    ∧ (∀ number stored : String, number ≠ "0" →
        pf.contentColumn (Json.num number) = some stored → 5 ≤ jsLength title →
        createPostHandler pf (some (Json.str title)) (some (Json.num number)) st
            ⟨authorization, some user⟩
          = (createdResponse, st.createPost user.username title stored false)) := by
  have key := createPostHandler_eq pf hs st authorization user title content
  have hnumT : ∀ number stored : String, number ≠ "0" →
      pf.titleColumn (Json.num number) = some stored → 20 ≤ jsLength content →
      createPostHandler pf (some (Json.num number)) (some (Json.str content)) st
          ⟨authorization, some user⟩
        = (createdResponse, st.createPost user.username stored content false) := by
    intro number stored hn hcol hc
    have hc1 : content.data ≠ [] := by simpa using jsLength_pos_not_empty content (by omega)
    have hc2 : ¬ jsLength content < 20 := by omega
    simp [createPostHandler, lengthLt, jsonFalsy, hn, hcol, hc1, hc2, (hs content).2]
  have hnumC : ∀ number stored : String, number ≠ "0" →
      pf.contentColumn (Json.num number) = some stored → 5 ≤ jsLength title →
      createPostHandler pf (some (Json.str title)) (some (Json.num number)) st
          ⟨authorization, some user⟩
        = (createdResponse, st.createPost user.username title stored false) := by
    intro number stored hn hcol ht
    have ht1 : title.data ≠ [] := by simpa using jsLength_pos_not_empty title (by omega)
    have ht2 : ¬ jsLength title < 5 := by omega
    simp [createPostHandler, lengthLt, jsonFalsy, hn, hcol, ht1, ht2, (hs title).1]
  by_cases ht : jsLength title < 5
  · rw [if_pos ht] at key
    rw [key]
    refine ⟨?_, ?_, ?_, ?_, ?_, ?_, ?_, ?_, hnumT, hnumC⟩
    · constructor
      · intro h; simp [send, createdResponse] at h
      · intro h; omega
    · simp [send]; omega
    · constructor
      · intro h; simpa using congrArg List.length h
      · intro h; omega
    · intro _; trivial
    · intro h; omega
    · intro _; rfl
    · intro _; rfl
    · intro h; omega
  · by_cases hc : jsLength content < 20
    · rw [if_neg ht, if_pos hc] at key
      rw [key]
      refine ⟨?_, ?_, ?_, ?_, ?_, ?_, ?_, ?_, hnumT, hnumC⟩
      · constructor
        · intro h; simp [send, createdResponse] at h
        · intro h; omega
      · simp [send]; omega
      · constructor
        · intro h; simpa using congrArg List.length h
        · intro h; omega
      · intro h; omega
      · intro _ _; trivial
      · intro _; rfl
      · intro _; rfl
      · intro _ h; omega
    · rw [if_neg ht, if_neg hc] at key
      rw [key]
      refine ⟨?_, ?_, ?_, ?_, ?_, ?_, ?_, ?_, hnumT, hnumC⟩
      · simp; omega
      · simp [createdResponse]; omega
      · simp [Store.createPost]; omega
      · intro h; omega
      · intro _ h; omega
      · intro h; omega
      · intro h; omega
      · intro _ _; rfl

theorem createPost_iff_lengths_witness :
    StoresStrings samplePlatform
    ∧ createPostHandler samplePlatform (some (Json.num "1"))
          (some (Json.str "01234567890123456789")) emptyStore ⟨none, some ⟨"bob", "user"⟩⟩
        = (createdResponse, emptyStore.createPost "bob" "1" "01234567890123456789" false)
    ∧ jsLength "1" = 1
    ∧ (createPostHandler samplePlatform (some (Json.str "Hello"))
          (some (Json.str "01234567890123456789")) emptyStore ⟨none, some ⟨"bob", "user"⟩⟩
        = (createdResponse, emptyStore.createPost "bob" "Hello" "01234567890123456789" false)
      ↔ 5 ≤ jsLength "Hello" ∧ 20 ≤ jsLength "01234567890123456789") :=
  ⟨fun _ => ⟨rfl, rfl⟩,
    (createPost_iff_lengths samplePlatform (fun _ => ⟨rfl, rfl⟩) emptyStore none
      ⟨"bob", "user"⟩ "Hello" "01234567890123456789").2.2.2.2.2.2.2.2.1 "1" "1"
      (by decide) rfl (by decide),
    by decide,
    (createPost_iff_lengths samplePlatform (fun _ => ⟨rfl, rfl⟩) emptyStore none
      ⟨"bob", "user"⟩ "Hello" "01234567890123456789").1⟩

/-! ## Moderation access -/

/-- C3. `POST /posts/validate/:id`: for every caller whose token verifies to a role other
than `moderator` (admin, user or any other value), every post id and every request body,
the answer is 403 "Access denied" and the store is returned unchanged; whenever no
moderator token is presented the store is unchanged and the answer is 401 or 403; only a
caller whose token carries role `moderator` reaches the handler that updates the flag. -/
theorem validate_forbidden_unless_moderator (verify : Verify) (st : Store) (req : Request)
    (postId : Nat) (isValid : Bool) (comments : Option String) :
    (∀ c, Authenticated verify req c → c.role ≠ "moderator" →
        validatePost verify postId isValid comments st req = (send 403 "Access denied", st))
    ∧ ((¬ ∃ c, Authenticated verify req c ∧ c.role = "moderator") →
        (validatePost verify postId isValid comments st req).2 = st ∧
        ((validatePost verify postId isValid comments st req).1.status = 401 ∨
          (validatePost verify postId isValid comments st req).1.status = 403))
    ∧ (∀ c, Authenticated verify req c → c.role = "moderator" →
        validatePost verify postId isValid comments st req
          = validateHandler postId isValid comments st ⟨req.authorization, some c⟩) := by
  have hden : ∀ c : Claims, c.role ≠ "moderator" → validateAllowList.contains c.role = false := by
    intro c hc; simpa [validateAllowList] using hc
  refine ⟨?_, ?_, ?_⟩
  · intro c h hc
    exact route_denied verify _ _ st req c h (hden c hc)
  · intro hno
    unfold validatePost
    cases hf : isFalsy (bearerToken req.authorization) with
    | true => rw [route_respond_missing _ _ _ _ _ hf]; exact ⟨rfl, Or.inl rfl⟩
    | false =>
      cases hv : verify ((bearerToken req.authorization).getD "") with
      | none => rw [route_respond_invalid _ _ _ _ _ hf hv]; exact ⟨rfl, Or.inl rfl⟩
      | some c =>
        have hc : c.role ≠ "moderator" := fun e => hno ⟨c, ⟨hf, hv⟩, e⟩
        rw [route_denied verify _ _ st req c ⟨hf, hv⟩ (hden c hc)]
        exact ⟨rfl, Or.inr rfl⟩
  · intro c h hc
    exact route_allowed verify _ _ st req c h (by simp [validateAllowList, hc])

/-! ## Authentication gate -/

/-- C9. `authenticateToken`, for every request, verification function and store: when the
Authorization header yields no token (header absent, or no non-empty second
space-separated field) the answer is 401 with the `missing_token` challenge; when a token
is found and verification fails the answer is 401 with the `invalid_token` challenge;
otherwise the verified payload is stored in `req.user` and `next()` is called.  The three
cases are exhaustive and their outcomes pairwise different, and the store is returned
unchanged in all of them.  A header `<word> <token>` yields `<token>`. -/
theorem authenticateToken_outcomes (verify : Verify) (st : Store) (req : Request) :
    (isFalsy (bearerToken req.authorization) = true →
        authenticateToken verify st req = (Step.respond missingTokenResponse, st))
    ∧ (isFalsy (bearerToken req.authorization) = false →
        verify ((bearerToken req.authorization).getD "") = none →
        authenticateToken verify st req = (Step.respond invalidTokenResponse, st))
    ∧ (∀ c, Authenticated verify req c →
        authenticateToken verify st req = (Step.next ⟨req.authorization, some c⟩, st))
    ∧ (isFalsy (bearerToken req.authorization) = true ∨
        (isFalsy (bearerToken req.authorization) = false ∧
          verify ((bearerToken req.authorization).getD "") = none) ∨
        ∃ c, Authenticated verify req c)
    ∧ (authenticateToken verify st req).2 = st
    ∧ missingTokenResponse = ⟨401, [("WWW-Authenticate",
        "Bearer realm=\"example\", error=\"missing_token\", error_description=\"No token provided\"")],
        Body.json [("error", "Unauthorized"), ("message", "Authentication required")]⟩
    ∧ invalidTokenResponse = ⟨401, [("WWW-Authenticate",
        "Bearer realm=\"example\", error=\"invalid_token\", error_description=\"Invalid or expired token\"")],
        Body.json [("error", "Unauthorized"), ("message", "Token is invalid or expired")]⟩
    ∧ missingTokenResponse ≠ invalidTokenResponse
    ∧ (req.authorization = none → isFalsy (bearerToken req.authorization) = true)
    ∧ (∀ scheme token : String, ' ' ∉ scheme.toList → ' ' ∉ token.toList →
        token.toList ≠ [] → req.authorization = some (scheme ++ " " ++ token) →
        isFalsy (bearerToken req.authorization) = false ∧
          (bearerToken req.authorization).getD "" = token) := by
  refine ⟨?_, ?_, ?_, ?_, ?_, rfl, rfl, by decide, ?_, ?_⟩
  · intro h; simp [authenticateToken, h]
  · intro h hv; simp [authenticateToken, h, hv]
  · rintro c ⟨h, hv⟩; simp [authenticateToken, h, hv]
  · cases hf : isFalsy (bearerToken req.authorization) with
    | true => exact Or.inl rfl
    | false =>
      cases hv : verify ((bearerToken req.authorization).getD "") with
      | none => exact Or.inr (Or.inl ⟨rfl, rfl⟩)
      | some c => exact Or.inr (Or.inr ⟨c, hf, hv⟩)
  · unfold authenticateToken
    dsimp only
    split
    · rfl
    · split <;> rfl
  · intro h; rw [h]; rfl
  · intro scheme token hs ht hne h
    rw [h, bearerToken_scheme_token scheme token hs ht]
    refine ⟨?_, rfl⟩
    cases htl : token.toList with
    | nil => exact absurd htl hne
    | cons a l => simp only [isFalsy, htl]; rfl

/-! ## Pending list -/

/-- C6, as stated, fails: a moderator with a valid token does not get the pending list. -/
theorem getUnvalidated_moderator_refused :
    ¬ ∀ (verify : Verify) (st : Store) (req : Request) (c : Claims),
      Authenticated verify req c →
      ((getUnvalidated verify st req).1
          = ⟨200, [], Body.posts (st.posts.filter (fun p => !p.isValidated))⟩
        ↔ (c.role = "moderator" ∨ c.role = "admin")) := by
  intro h
  have h1 := (h sampleVerify sampleStore reqMod ⟨"mia", "moderator"⟩ (by decide)).2 (Or.inl rfl)
  revert h1
  decide

/-- C6, amended. `GET /posts/unvalidated`: for every caller with a valid token, the list
of posts whose `isValidated` is false is returned (200, store unchanged) if and only if
the caller's role is `admin`; a caller with any other role, `moderator` and `user`
included, receives 403 "Access denied". -/
theorem getUnvalidated_iff_admin (verify : Verify) (st : Store) (req : Request) (c : Claims)
    (h : Authenticated verify req c) :
    (getUnvalidated verify st req
        = (⟨200, [], Body.posts (st.posts.filter (fun p => !p.isValidated))⟩, st)
      ↔ c.role = "admin")
    ∧ (c.role ≠ "admin" → getUnvalidated verify st req = (send 403 "Access denied", st))
    ∧ (c.role = "moderator" → (getUnvalidated verify st req).1.status = 403)
    ∧ (c.role = "user" → (getUnvalidated verify st req).1.status = 403) := by
  have hden : c.role ≠ "admin" →
      getUnvalidated verify st req = (send 403 "Access denied", st) := by
    intro hc
    exact route_denied verify _ _ st req c h (by simpa [unvalidatedAllowList] using hc)
  refine ⟨?_, hden, ?_, ?_⟩
  · constructor
    · intro e
      by_contra hc
      rw [hden hc] at e
      simp [send] at e
    · intro hc
      unfold getUnvalidated
      rw [route_allowed verify _ _ st req c h (by simp [unvalidatedAllowList, hc])]
      rfl
  · intro hc
    rw [hden (by rw [hc]; decide)]
    rfl
  · intro hc
    rw [hden (by rw [hc]; decide)]
    rfl

theorem getUnvalidated_iff_admin_witness :
    (getUnvalidated sampleVerify sampleStore reqAdmin
        = (⟨200, [], Body.posts (sampleStore.posts.filter (fun p => !p.isValidated))⟩,
            sampleStore)
      ↔ (⟨"root", "admin"⟩ : Claims).role = "admin")
    ∧ ((⟨"root", "admin"⟩ : Claims).role ≠ "admin" →
        getUnvalidated sampleVerify sampleStore reqAdmin
          = (send 403 "Access denied", sampleStore))
    ∧ ((⟨"root", "admin"⟩ : Claims).role = "moderator" →
        (getUnvalidated sampleVerify sampleStore reqAdmin).1.status = 403)
    ∧ ((⟨"root", "admin"⟩ : Claims).role = "user" →
        (getUnvalidated sampleVerify sampleStore reqAdmin).1.status = 403) :=
  getUnvalidated_iff_admin sampleVerify sampleStore reqAdmin ⟨"root", "admin"⟩ (by decide)

/-! ## Deletion -/

/-- C2, on the code. `DELETE /posts/:id` with its allow-list `["admin", "moderator"]`, for
every caller with a valid token and every existing post: an admin deletes any post; a
moderator deletes the post when they are its author and otherwise receives 403 with the
post kept; but a caller with role `user` receives 403 "Access denied" and the store is
unchanged even when they are the author of the post. -/
theorem deletePost_by_role (verify : Verify) (st : Store) (req : Request) (c : Claims)
    (postId : Nat) (post : Post) (h : Authenticated verify req c)
    (hp : st.posts.find? (fun p => p.id == postId) = some post) :
    (c.role = "user" → post.username = c.username →
        deletePost verify postId st req = (send 403 "Access denied", st))
    ∧ (c.role = "admin" →
        deletePost verify postId st req
          = (send 200 "Post deleted successfully", st.destroyPost postId))
    ∧ (c.role = "moderator" → post.username = c.username →
        deletePost verify postId st req
          = (send 200 "Post deleted successfully", st.destroyPost postId))
    ∧ (c.role = "moderator" → post.username ≠ c.username →
        deletePost verify postId st req
          = (send 403 "You do not have permission to delete this post", st)) := by
  refine ⟨?_, ?_, ?_, ?_⟩
  · intro hc _
    exact route_denied verify _ _ st req c h (by rw [hc]; decide)
  · intro hc
    unfold deletePost
    rw [route_allowed verify _ _ st req c h (by rw [hc]; decide)]
    simp [deleteHandler, hp, hc]
  · intro hc ha
    unfold deletePost
    rw [route_allowed verify _ _ st req c h (by rw [hc]; decide)]
    simp [deleteHandler, hp, ha]
  · intro hc ha
    unfold deletePost
    rw [route_allowed verify _ _ st req c h (by rw [hc]; decide)]
    simp [deleteHandler, hp, ha, hc]

theorem deletePost_by_role_witness :
    ((⟨"bob", "user"⟩ : Claims).role = "user" →
        (⟨1, "bob", "Hello world", "A body of twenty chars", false⟩ : Post).username
          = (⟨"bob", "user"⟩ : Claims).username →
        deletePost sampleVerify 1 sampleStore reqBob = (send 403 "Access denied", sampleStore))
    ∧ ((⟨"bob", "user"⟩ : Claims).role = "admin" →
        deletePost sampleVerify 1 sampleStore reqBob
          = (send 200 "Post deleted successfully", sampleStore.destroyPost 1))
    ∧ ((⟨"bob", "user"⟩ : Claims).role = "moderator" →
        (⟨1, "bob", "Hello world", "A body of twenty chars", false⟩ : Post).username
          = (⟨"bob", "user"⟩ : Claims).username →
        deletePost sampleVerify 1 sampleStore reqBob
          = (send 200 "Post deleted successfully", sampleStore.destroyPost 1))
    ∧ ((⟨"bob", "user"⟩ : Claims).role = "moderator" →
        (⟨1, "bob", "Hello world", "A body of twenty chars", false⟩ : Post).username
          ≠ (⟨"bob", "user"⟩ : Claims).username →
        deletePost sampleVerify 1 sampleStore reqBob
          = (send 403 "You do not have permission to delete this post", sampleStore)) :=
  deletePost_by_role sampleVerify sampleStore reqBob ⟨"bob", "user"⟩ 1
    ⟨1, "bob", "Hello world", "A body of twenty chars", false⟩ (by decide) (by decide)

/-! ## Policy table against allow-lists -/

/-- C10, on the code. The allow-list of `POST /posts` admits the role `user`, for which
the table `roles` lists only `read`: a caller with a `user` token creates a post. -/
theorem createAllowList_admits_user_without_write :
    createAllowList.contains "user" = true
    ∧ (roles "user").contains "write" = false
    ∧ roles "user" = ["read"]
    ∧ createPost samplePlatform sampleVerify (some (Json.str "Hello"))
          (some (Json.str "01234567890123456789")) emptyStore reqBob
        = (createdResponse, emptyStore.createPost "bob" "Hello" "01234567890123456789" false) := by
  decide

/-! ## Sign-up -/

/-- C7, as stated, fails: with an unknown role and a username already in the store the
answer is not "Invalid role". -/
theorem signUp_unknown_role_sees_store :
    ¬ ∀ (hash : String → String) (st : Store) (username password role : String),
      role ∉ validRoles →
      signUp hash st username password role = (send 400 "Invalid role", st) := by
  intro h
  have h1 := h sampleHash sampleStore "alice" "Secret123!" "superuser" (by decide)
  revert h1
  decide

/-- C7, amended. `signUp`, for every username, password and role outside
`{admin, user, moderator}`: the answer is 400 and the store is left unchanged; the
username lookup comes first, so the answer is "Invalid role" when the username is not in
the store and "Username already exists" when it is. -/
theorem signUp_unknown_role (hash : String → String) (st : Store)
    (username password role : String) (hr : role ∉ validRoles) :
    (signUp hash st username password role).1.status = 400
    ∧ (signUp hash st username password role).2 = st
    ∧ (username ∉ st.users.map (fun u => u.username) →
        signUp hash st username password role = (send 400 "Invalid role", st))
    ∧ (username ∈ st.users.map (fun u => u.username) →
        signUp hash st username password role = (send 400 "Username already exists", st)) := by
  have hfresh : username ∉ st.users.map (fun u => u.username) →
      signUp hash st username password role = (send 400 "Invalid role", st) := by
    intro hu
    rw [signUp_fresh hash st username password role hu, if_neg hr]
  have hold := signUp_existing hash st username password role
  by_cases hu : username ∈ st.users.map (fun u => u.username)
  · exact ⟨by rw [hold hu]; rfl, by rw [hold hu], hfresh, hold⟩
  · exact ⟨by rw [hfresh hu]; rfl, by rw [hfresh hu], hfresh, hold⟩

theorem signUp_unknown_role_witness :
    (signUp sampleHash sampleStore "carol" "Secret123!" "superuser").1.status = 400
    ∧ (signUp sampleHash sampleStore "carol" "Secret123!" "superuser").2 = sampleStore
    ∧ ("carol" ∉ sampleStore.users.map (fun u => u.username) →
        signUp sampleHash sampleStore "carol" "Secret123!" "superuser"
          = (send 400 "Invalid role", sampleStore))
    ∧ ("carol" ∈ sampleStore.users.map (fun u => u.username) →
        signUp sampleHash sampleStore "carol" "Secret123!" "superuser"
          = (send 400 "Username already exists", sampleStore)) :=
  signUp_unknown_role sampleHash sampleStore "carol" "Secret123!" "superuser" (by decide)

/-- C8. Sequential `signUp` on a store whose usernames are pairwise distinct and whose
roles are all in `{admin, user, moderator}`: one `signUp`, and every sequence of them,
leaves both facts true; a `signUp` whose username is already stored answers 400
"Username already exists" and leaves the store unchanged; a `signUp` with a fresh
username and a valid role answers 201 and appends exactly one account, carrying that
username, the hashed password and that role. -/
theorem signUp_keeps_accounts (hash : String → String) (st : Store)
    (username password role : String) (reqs : List (String × String × String))
    (h : AccountsOk st) :
    AccountsOk (signUp hash st username password role).2
    ∧ AccountsOk (signUpAll hash reqs st)
    ∧ (username ∈ st.users.map (fun u => u.username) →
        signUp hash st username password role = (send 400 "Username already exists", st))
    ∧ (username ∉ st.users.map (fun u => u.username) → role ∈ validRoles →
        (signUp hash st username password role).1 = send 201 "User registered successfully"
        ∧ (signUp hash st username password role).2.users
            = st.users ++ [⟨st.nextUserId, username, hash password, role⟩]
        ∧ (signUp hash st username password role).2.posts = st.posts) := by
  refine ⟨signUp_accountsOk hash st username password role h,
    signUpAll_accountsOk hash reqs st h, signUp_existing hash st username password role, ?_⟩
  intro hu hr
  rw [signUp_fresh hash st username password role hu, if_pos hr]
  exact ⟨rfl, rfl, rfl⟩

theorem signUp_keeps_accounts_witness :
    AccountsOk (signUp sampleHash sampleStore "bob" "Secret123!" "user").2
    ∧ AccountsOk (signUpAll sampleHash
        [("alice", "x", "user"), ("dan", "y", "moderator")] sampleStore)
    ∧ ("bob" ∈ sampleStore.users.map (fun u => u.username) →
        signUp sampleHash sampleStore "bob" "Secret123!" "user"
          = (send 400 "Username already exists", sampleStore))
    ∧ ("bob" ∉ sampleStore.users.map (fun u => u.username) → "user" ∈ validRoles →
        (signUp sampleHash sampleStore "bob" "Secret123!" "user").1
          = send 201 "User registered successfully"
        ∧ (signUp sampleHash sampleStore "bob" "Secret123!" "user").2.users
            = sampleStore.users ++ [⟨sampleStore.nextUserId, "bob", sampleHash "Secret123!", "user"⟩]
        ∧ (signUp sampleHash sampleStore "bob" "Secret123!" "user").2.posts
            = sampleStore.posts) :=
  signUp_keeps_accounts sampleHash sampleStore "bob" "Secret123!" "user"
    [("alice", "x", "user"), ("dan", "y", "moderator")]
    ⟨by decide, by decide⟩

/-! ## Moderation lifecycle -/

/-- C4, as stated, fails: a post created by `bob`, approved by a moderator
(`isValidated = true`) and validated again with `isValid = false` is back in exactly the
state in which it was created. -/
theorem approved_post_returns_to_pending :
    lifecycleCreated.posts = [⟨1, "bob", "Hello", "01234567890123456789", false⟩]
    ∧ lifecycleApproved.posts = [⟨1, "bob", "Hello", "01234567890123456789", true⟩]
    ∧ lifecycleReverted = lifecycleCreated := by
  decide

/-- C4, amended. A post is created with `isValidated = false`.  A validate call is not
guarded by the current state: after every non-empty sequence of validate calls on a post
id the store is the initial one with the flag of that post set to the `isValid` of the
last call (last write wins), so an approved post can return to `isValidated = false`.
Validate calls change nothing else: ids, authors, titles and contents, the posts with
another id, the accounts and the counters are kept. -/
theorem validate_last_write_wins (pf : Platform) (st : Store) (req : Request) (user : Claims)
    (title content : Option Json) (postId : Nat) (calls : List (Bool × Option String))
    (isValid : Bool) (comments : Option String) :
    (∀ p ∈ (createPostHandler pf title content st
          ⟨req.authorization, some user⟩).2.posts, p ∈ st.posts ∨ p.isValidated = false)
    ∧ validateAll postId (calls ++ [(isValid, comments)]) st req
        = st.setValidated postId isValid
    ∧ (∀ p ∈ (st.setValidated postId isValid).posts, p.id = postId → p.isValidated = isValid)
    ∧ (st.setValidated postId isValid).posts.map (fun p => (p.id, p.username, p.title, p.content))
        = st.posts.map (fun p => (p.id, p.username, p.title, p.content))
    ∧ (st.setValidated postId isValid).posts.filter (fun p => !(p.id == postId))
        = st.posts.filter (fun p => !(p.id == postId))
    ∧ (st.setValidated postId isValid).users = st.users
    ∧ (st.setValidated postId isValid).nextUserId = st.nextUserId
    ∧ (st.setValidated postId isValid).nextPostId = st.nextPostId := by
  refine ⟨?_, validateAll_last postId calls isValid comments st req, ?_, ?_, ?_, rfl, rfl, rfl⟩
  · exact createPostHandler_pending pf title content st ⟨req.authorization, some user⟩
  · intro p hp hid
    simp only [Store.setValidated, List.mem_map] at hp
    obtain ⟨q, _, hq⟩ := hp
    by_cases e : q.id = postId
    · simp only [e, beq_self_eq_true, if_true] at hq
      rw [← hq]
    · have e1 : (q.id == postId) = false := by simpa using e
      simp only [e1, Bool.false_eq_true, if_false] at hq
      subst hq
      exact absurd hid e
  · simp only [Store.setValidated, List.map_map]
    apply List.map_congr_left
    intro p _
    by_cases e : p.id = postId <;> simp [e]
  · simp only [Store.setValidated, List.filter_map]
    induction st.posts with
    | nil => rfl
    | cons p ps ih =>
      by_cases e : p.id = postId
      · simp [List.filter_cons, e]
        simpa using ih
      · simp [List.filter_cons, e]
        simpa using ih

/-- C5, as stated, fails: a moderator rejecting a pending post with the note "spam" gets
200, but the store is exactly the store before the call: the post is not distinguishable
from a pending one and no note is stored. -/
theorem rejection_leaves_store_unchanged :
    validatePost sampleVerify 1 false (some "spam") sampleStore reqMod
        = (send 200 "Post rejected: spam", sampleStore)
    ∧ (validatePost sampleVerify 1 false (some "spam") sampleStore reqMod).2.posts
        = [⟨1, "bob", "Hello world", "A body of twenty chars", false⟩] := by
  decide

/-- C5, amended. `POST /posts/validate/:id` with `isValid = false`, called by a moderator
on an existing post whose `isValidated` is false: the answer is 200 with the text
"Post rejected: " followed by the `comments` of the request, or by
"No comments provided" when `comments` is absent or empty; the note appears only in the
answer, and the store, with the post still `isValidated = false`, is unchanged. -/
theorem reject_pending_answer (verify : Verify) (st : Store) (req : Request) (c : Claims)
    (postId : Nat) (comments : Option String) (post : Post)
    (h : Authenticated verify req c) (hc : c.role = "moderator")
    (hp : st.posts.find? (fun p => p.id == postId) = some post)
    (hpend : ∀ p ∈ st.posts, p.id = postId → p.isValidated = false) :
    validatePost verify postId false comments st req
        = (send 200 ("Post rejected: " ++ commentsOrDefault comments), st)
    ∧ (comments = none ∨ comments = some "" →
        commentsOrDefault comments = "No comments provided")
    ∧ (∀ note : String, note ≠ "" → comments = some note → commentsOrDefault comments = note) := by
  refine ⟨?_, ?_, ?_⟩
  · unfold validatePost
    rw [route_allowed verify _ _ st req c h (by rw [hc]; decide)]
    have hs := validateHandler_store st ⟨req.authorization, some c⟩ postId false comments
    have hr : (validateHandler postId false comments st ⟨req.authorization, some c⟩).1
        = send 200 ("Post rejected: " ++ commentsOrDefault comments) := by
      simp [validateHandler, hp]
    rw [setValidated_same_flag st postId false hpend] at hs
    exact Prod.ext hr hs
  · rintro (e | e) <;> rw [e] <;> rfl
  · intro note hne e
    rw [e]
    have : note.toList ≠ [] := fun x => hne (by
      cases note; simp only [String.toList] at x; subst x; rfl)
    cases hl : note.toList with
    | nil => exact absurd hl this
    | cons a l => simp only [commentsOrDefault, hl]; rfl

theorem reject_pending_answer_witness :
    validatePost sampleVerify 1 false (some "spam") sampleStore reqMod
        = (send 200 ("Post rejected: " ++ commentsOrDefault (some "spam")), sampleStore)
    ∧ ((some "spam" : Option String) = none ∨ (some "spam" : Option String) = some "" →
        commentsOrDefault (some "spam") = "No comments provided")
    ∧ (∀ note : String, note ≠ "" → (some "spam" : Option String) = some note →
        commentsOrDefault (some "spam") = note) :=
  reject_pending_answer sampleVerify sampleStore reqMod ⟨"mia", "moderator"⟩ 1 (some "spam")
    ⟨1, "bob", "Hello world", "A body of twenty chars", false⟩
    (by decide) rfl (by decide) (by decide)

end VRV
